import Mathlib

/-!
Verification of the timed-quiz session page of ExamCooker-2024
(`src/app/@protected_routes/quiz/[id]/page.tsx`).

The relevant program fragments (parameter parsing, candidate selection,
the comparator-based shuffle, the session state machine, the scorer and
the review filter) are embedded shallowly below; JavaScript `undefined`
is modelled by `Option`, machine numbers by `Nat`/`ℚ`, the random
comparator `() => Math.random() - 0.5` by a stream of fair-coin Booleans,
and thrown errors by `Except`.
-/

set_option autoImplicit false

namespace ExamCooker

/-! ### Data model (interfaces `QuizContent`, `Week`, `Question`, `QuizQuestion`) -/

/-- `interface Question { question; options; answer: string[] }`. -/
structure Question where
  question : String
  options : List String
  answer : List String
deriving DecidableEq

/-- `interface Week { name; questions }`. -/
structure Week where
  name : String
  questions : List Question
deriving DecidableEq

/-- `interface QuizContent { title; weeks }`. -/
structure QuizContent where
  title : String
  weeks : List Week
deriving DecidableEq

/-- `interface QuizQuestion`: `answer : Option String` because the code takes
`q.answer[0]`, which is `undefined` when the bank's answer array is empty. -/
structure QuizQuestion where
  question : String
  options : List String
  answer : Option String
  selectedAnswer : Option String := none
  weekNumber : String
  isExpanded : Bool := false
deriving DecidableEq

/-! ### Parameter parsing (page.tsx lines 77-85) -/

/-- Numeric value of a decimal digit character. -/
def digitVal (c : Char) : Nat := c.toNat - 48

/-- JavaScript `parseInt` on the strings this page feeds it: reads the longest
leading run of decimal digits, `NaN` (here `none`) when there is none. -/
def jsParseIntDigits (s : String) : Option Nat :=
  let ds := s.toList.takeWhile (fun c => c.isDigit)
  if ds.isEmpty then none
  else some (ds.foldl (fun a c => 10 * a + digitVal c) 0)

/-- JavaScript `Number(...)` restricted to the week tokens of this page:
`Number("") = 0`, a digit string maps to its value, anything else is `NaN`
(`none`).  Fractional or signed numeric syntax does not occur in the
`weeks` parameter domain of §6 (dash-separated positive integers). -/
def jsNumberDigits (cs : List Char) : Option Nat :=
  if cs.isEmpty then some 0
  else if cs.all (fun c => c.isDigit) then
    some (cs.foldl (fun a c => 10 * a + digitVal c) 0)
  else none

/-- JavaScript `String.prototype.split("-")` on the character list. -/
def splitDash : List Char → List (List Char)
  | [] => [[]]
  | c :: cs =>
    let r := splitDash cs
    if c = '-' then [] :: r
    else
      match r with
      | [] => [[c]]
      | g :: gs => (c :: g) :: gs

/-- Line 77: `const weeks = weeksParam ? weeksParam.split("-").map(Number) : []`.
The empty string is falsy in JavaScript, hence the `isEmpty` guard. -/
def parseWeeks (weeksParam : Option String) : List (Option Nat) :=
  match weeksParam with
  | none => []
  | some s => if s.toList.isEmpty then [] else (splitDash s.toList).map jsNumberDigits

/-- ECMAScript `substring(a, b)` for the in-range uses on line 80-82. -/
def substringChars (s : String) (a b : Nat) : String :=
  String.mk ((s.toList.drop a).take (b - a))

/-- Lines 79-83: `timeParam ? parseInt(...)*3600 + parseInt(...)*60 + parseInt(...) : 0`.
`none` is `NaN` (propagated through the arithmetic). -/
def timeSecondsOfParam : Option String → Option Nat
  | none => some 0
  | some s =>
    if s.toList.isEmpty then some 0
    else
      match jsParseIntDigits (substringChars s 0 2), jsParseIntDigits (substringChars s 2 4),
            jsParseIntDigits (substringChars s 4 6) with
      | some h, some m, some sec => some (h * 3600 + m * 60 + sec)
      | _, _, _ => none

/-- Line 85: `setTimeRemaining(timeSeconds > 0 ? timeSeconds : 30 * 60)`
(`NaN > 0` is false, so `NaN` also falls back to the default). -/
def initialTimeRemaining (tp : Option String) : Nat :=
  match timeSecondsOfParam tp with
  | some t => if t > 0 then t else 30 * 60
  | none => 30 * 60

/-! ### Candidate selection and the shuffle (page.tsx lines 96-113) -/

/-- Lines 99-105: a `QuizQuestion` derived from a bank question;
`answer := q.answer[0]` is the head option of the answer array. -/
def toQuizQuestion (weekName : String) (q : Question) : QuizQuestion :=
  { question := q.question
    options := q.options
    answer := q.answer.head?
    selectedAnswer := none
    weekNumber := weekName
    isExpanded := false }

/-- Lines 96-106: `data.weeks.filter(week => weeks.includes(parseInt(week.name))).flatMap(...)`.
`Option Nat` equality matches `includes`' SameValueZero on integers and `NaN`. -/
def candidateQuestions (weeksParam : Option String) (bank : QuizContent) : List QuizQuestion :=
  ((bank.weeks.filter
      (fun w => (parseWeeks weeksParam).contains (jsParseIntDigits w.name))).map
    (fun w => w.questions.map (toQuizQuestion w.name))).flatten

/-- One comparator call of `allQuestions.sort(() => Math.random() - 0.5)`:
`Math.random() - 0.5` is negative or non-negative with probability 1/2 each,
so each comparison is a fair coin.  `randInsert x l bs` inserts `x` into `l`,
consuming one coin per comparison (`true` = "x stays in front"). -/
def randInsert {α : Type} (x : α) : List α → List Bool → List α × List Bool
  | [], bs => ([x], bs)
  | y :: ys, [] => (x :: y :: ys, [])
  | y :: ys, b :: bs =>
    if b then (x :: y :: ys, bs)
    else
      let p := randInsert x ys bs
      (y :: p.1, p.2)

/-- Line 112, `Array.prototype.sort` with the random comparator, modelled as
insertion sort driven by the coin stream.  Any comparison sort driven by
boundedly many fair coins assigns each output order a dyadic probability,
so the particular sort routine does not matter for (non-)uniformity. -/
def randSort {α : Type} : List α → List Bool → List α × List Bool
  | [], bs => ([], bs)
  | x :: xs, bs =>
    let p := randSort xs bs
    randInsert x p.1 p.2

/-- Lines 96-113 of `fetchQuizContent`, from candidate selection to
`setQuestions(shuffledQuestions.slice(0, numQuestions))`.  The error string is
the thrown message of line 109 (the spec's `EmptySelectionError`). -/
def initQuestions (weeksParam : Option String) (numQ : Nat) (bank : QuizContent)
    (coins : List Bool) : Except String (List QuizQuestion) :=
  let allQ := candidateQuestions weeksParam bank
  if allQ.length = 0 then
    Except.error "No questions available for the selected weeks."
  else
    Except.ok (((randSort allQ coins).1).take numQ)

/-! ### Session state and operations (page.tsx lines 43-196) -/

/-- The `useState` fields of `QuizComponent` that constitute the session. -/
structure QuizState where
  questions : List QuizQuestion
  currentQuestionIndex : Nat
  timeRemaining : Nat
  quizSubmitted : Bool
  score : Nat
  showWarning : Bool
  showOnlyIncorrect : Bool
  expandedQuestionIndex : Option Nat
  showError : Bool
deriving DecidableEq

/-- Lines 169-171: `questions.filter(q => q.selectedAnswer === q.answer).length`.
`===` on possibly-`undefined` strings is `Option` equality. -/
def countCorrect (qs : List QuizQuestion) : Nat :=
  (qs.filter (fun q => q.selectedAnswer == q.answer)).length

/-- Lines 168-174, `submitQuiz`: note there is no `quizSubmitted` guard in the
body; every invocation runs the score computation and the two writes. -/
def submitQuiz (s : QuizState) : QuizState :=
  { s with score := countCorrect s.questions, quizSubmitted := true }

/-- `submitQuiz` instrumented with a ghost counter of how many times the score
computation has executed.  Because the body of `submitQuiz` is unguarded,
every invocation executes the computation, so the counter increments once
per call; the state component is exactly `submitQuiz`. -/
def submitQuizInstr (p : QuizState × Nat) : QuizState × Nat :=
  (submitQuiz p.1, p.2 + 1)

/-- `updatedQuestions[currentQuestionIndex].selectedAnswer = answer` (line 164). -/
def setSelectedAnswer : List QuizQuestion → Nat → String → List QuizQuestion
  | [], _, _ => []
  | q :: qs, 0, a => { q with selectedAnswer := some a } :: qs
  | q :: qs, n + 1, a => q :: setSelectedAnswer qs n a

/-- Lines 161-166, `handleAnswerSelect`. -/
def handleAnswerSelect (a : String) (s : QuizState) : QuizState :=
  { s with showError := false
           questions := setSelectedAnswer s.questions s.currentQuestionIndex a }

/-- JavaScript falsiness of `q.selectedAnswer` as tested on line 179:
both `undefined` and the empty string are falsy. -/
def jsFalsy : Option String → Bool
  | none => true
  | some s => s.isEmpty

/-- Lines 176-190, `goToNextQuestion`.  `none` models the `TypeError` thrown
when `questions[currentQuestionIndex]` is `undefined` (index out of range),
which the page never reaches from its own UI. -/
def goToNextQuestion (s : QuizState) : Option QuizState :=
  match s.questions[s.currentQuestionIndex]? with
  | none => none
  | some q =>
    if jsFalsy q.selectedAnswer then some { s with showError := true }
    else if s.currentQuestionIndex = s.questions.length - 1 then
      some (submitQuiz { s with showError := false })
    else
      some { s with showError := false, currentQuestionIndex := s.currentQuestionIndex + 1 }

/-- One tick of the interval of lines 130-149.  The interval only exists while
`timeRemaining > 0 && !quizSubmitted` (the effect's guard); the callback
submits and returns 0 when `prev <= 1`, raises the warning when `prev === 30`,
and otherwise just decrements. -/
def tick (s : QuizState) : QuizState :=
  if s.timeRemaining > 0 ∧ s.quizSubmitted = false then
    if s.timeRemaining ≤ 1 then { submitQuiz s with timeRemaining := 0 }
    else if s.timeRemaining = 30 then
      { s with timeRemaining := s.timeRemaining - 1, showWarning := true }
    else { s with timeRemaining := s.timeRemaining - 1 }
  else s

/-- Lines 124-128: the effect that force-submits when the clock shows 0. -/
def autoSubmitEffect (s : QuizState) : QuizState :=
  if s.timeRemaining = 0 ∧ s.quizSubmitted = false ∧ 0 < s.questions.length then
    submitQuiz s
  else s

/-- Lines 192-196, `toggleQuestionExpansion`. -/
def toggleQuestionExpansion (i : Nat) (s : QuizState) : QuizState :=
  if s.quizSubmitted = true then
    { s with expandedQuestionIndex := if s.expandedQuestionIndex = some i then none else some i }
  else s

/-- The `onChange` of the "Show Incorrect Only" checkbox (line 288). -/
def setShowOnlyIncorrect (b : Bool) (s : QuizState) : QuizState :=
  { s with showOnlyIncorrect := b }

/-- Lines 225-227: the displayed review subsequence. -/
def displayedQuestions (onlyIncorrect : Bool) (qs : List QuizQuestion) : List QuizQuestion :=
  if onlyIncorrect then qs.filter (fun q => !(q.selectedAnswer == q.answer)) else qs

/-- The review list the submitted branch renders for a state. -/
def displayedOf (s : QuizState) : List QuizQuestion :=
  displayedQuestions s.showOnlyIncorrect s.questions

/-! ### Scorer presentation (page.tsx lines 198-202 and 229) -/

/-- Line 229 before `toFixed`: `(score / questions.length) * 100`, over ℚ. -/
def percentageRaw (sc total : Nat) : ℚ := (sc : ℚ) / (total : ℚ) * 100

/-- ECMAScript `toFixed(1)`: the multiple of 1/10 nearest to the value, ties
to the larger candidate.  (The double-precision representation noise of the
source is outside this rational model.) -/
def toFixed1 (x : ℚ) : ℚ := ((⌊x * 10 + 1 / 2⌋ : ℤ) : ℚ) / 10

/-- Line 229: the percentage the result screen displays and feeds to
`getScoreColor` via `Number(percentage)`. -/
def displayedPercentage (sc total : Nat) : ℚ := toFixed1 (percentageRaw sc total)

/-- Lines 198-202, `getScoreColor`: the tier thresholds, returning the literal
class strings of the source ("high"/"mid"/"low" presentation tiers). -/
def getScoreColor (p : ℚ) : String :=
  if p ≥ 80 then "text-green-800 dark:bg-green-800/20"
  else if p ≥ 60 then "text-yellow-600 dark:bg-yellow-800/20"
  else "dark:bg-red-800/20 text-red-800"

/-! ### Event model for the temporal claims -/

/-- The events that can touch the session: a timer tick, the zero-clock
effect, answer selection, the Next/Submit button, the review filter checkbox
and review expansion. -/
inductive QuizOp where
  | timerTick
  | expiry
  | select (a : String)
  | advance
  | filterIncorrect (b : Bool)
  | expand (i : Nat)

/-- Apply one event to the session state.  `advance` on an out-of-range index
throws in JavaScript, halting the handler with the state unchanged, hence
`getD`. -/
def applyOp : QuizOp → QuizState → QuizState
  | QuizOp.timerTick, s => tick s
  | QuizOp.expiry, s => autoSubmitEffect s
  | QuizOp.select a, s => handleAnswerSelect a s
  | QuizOp.advance, s => (goToNextQuestion s).getD s
  | QuizOp.filterIncorrect b, s => setShowOnlyIncorrect b s
  | QuizOp.expand i, s => toggleQuestionExpansion i s

/-- Run a sequence of events. -/
def runOps (ops : List QuizOp) (s : QuizState) : QuizState :=
  ops.foldl (fun st op => applyOp op st) s

/-- All intermediate states of a run, the initial state included. -/
def traceStates : List QuizOp → QuizState → List QuizState
  | [], s => [s]
  | op :: ops, s => s :: traceStates ops (applyOp op s)

/-- Number of `false → true` transitions in a Boolean trace. -/
def risingEdges : List Bool → Nat
  | [] => 0
  | [_] => 0
  | a :: b :: rest => (if a = false ∧ b = true then 1 else 0) + risingEdges (b :: rest)

/-! ### Enumeration of comparator outcomes for the shuffle -/

/-- All coin streams of length `n`, each equally likely for fair coins. -/
def boolStreams : Nat → List (List Bool)
  | 0 => [[]]
  | n + 1 => ((boolStreams n).map (fun bs => [true :: bs, false :: bs])).flatten

/-- How many of the length-`n` coin streams make the random-comparator sort
of `l` produce `tgt`.  Sorting three elements consumes at most three coins,
so for `n = 3` the count divided by 8 is the exact probability of `tgt`. -/
def shuffleOutcomeCount (l : List Nat) (n : Nat) (tgt : List Nat) : Nat :=
  ((boolStreams n).filter (fun bs => (randSort l bs).1 == tgt)).length

/-! ### Shuffle lemmas -/

theorem randInsert_fst_length {α : Type} (x : α) :
    ∀ (l : List α) (bs : List Bool), ((randInsert x l bs).1).length = l.length + 1 := by
  intro l
  induction l with
  | nil => intro bs; rfl
  | cons y ys ih =>
    intro bs
    cases bs with
    | nil => rfl
    | cons b bs =>
      cases b with
      | true => simp [randInsert]
      | false => simp [randInsert, ih bs]

theorem randSort_fst_length {α : Type} :
    ∀ (l : List α) (bs : List Bool), ((randSort l bs).1).length = l.length := by
  intro l
  induction l with
  | nil => intro bs; rfl
  | cons x xs ih =>
    intro bs
    simp [randSort, randInsert_fst_length, ih bs]

/-- The week filter keeps nothing when the requested week list is empty. -/
theorem candidateQuestions_none (bank : QuizContent) : candidateQuestions none bank = [] := by
  unfold candidateQuestions
  have h : ∀ ws : List Week,
      ws.filter (fun w => (parseWeeks none).contains (jsParseIntDigits w.name)) = [] := by
    intro ws
    induction ws with
    | nil => rfl
    | cons w ws ih =>
      have hp : (parseWeeks none).contains (jsParseIntDigits w.name) = false := rfl
      rw [List.filter_cons, hp]
      simpa using ih
  rw [h]
  rfl

/-! ### Claims -/

/-- Claim C1 (code bug): the shuffle on line 112 is
`allQuestions.sort(() => Math.random() - 0.5)`, a comparison sort whose
comparator is a fair coin.  Enumerating the 8 equally likely streams of the
(at most) three comparator outcomes used on a 3-candidate list: the identity
order arises on 2 of the 8 streams while the order `[1, 0, 2]` arises on only
1, so the 3! orderings are not produced with equal probability — the uniform
shuffle the claim (and spec §9) require is not what the code computes. -/
theorem shuffleNotUniform_c1 :
    shuffleOutcomeCount [0, 1, 2] 3 [0, 1, 2] = 2 ∧
    shuffleOutcomeCount [0, 1, 2] 3 [1, 0, 2] = 1 ∧
    shuffleOutcomeCount [0, 1, 2] 3 [0, 1, 2] ≠ shuffleOutcomeCount [0, 1, 2] 3 [1, 0, 2] := by
  refine ⟨by decide, by decide, by decide⟩

/-- Claim C9: when the `weeks` query parameter is absent the requested week
list is `[]` (line 77), so the week filter keeps no candidate and
initialization throws the empty-selection error of line 109, for every bank
(in particular banks with questions in every week) and every `numQ`. -/
theorem missingWeeks_c9 (numQ : Nat) (bank : QuizContent) (coins : List Bool) :
    initQuestions none numQ bank coins =
      Except.error "No questions available for the selected weeks." := by
  simp [initQuestions, candidateQuestions_none]

/-- A one-week, one-question bank used as concrete input below. -/
def bankEx : QuizContent :=
  { title := "t"
    weeks := [{ name := "1"
                questions := [{ question := "q1", options := ["a", "b"], answer := ["a"] }] }] }

/-- Claim C2 counterexample: with one candidate (`candidateCount = 1`) and
`numQ = 0`, initialization succeeds with a 0-question session — the produced
count is 0 although `candidateCount ≠ 0`, and no `EmptySelectionError` is
raised, contradicting "it is 0 only when candidateCount == 0, in which case
initialization fails". -/
theorem zeroRequest_c2_counterexample :
    initQuestions (some "1") 0 bankEx [] = Except.ok [] ∧
    (candidateQuestions (some "1") bankEx).length = 1 := by
  exact ⟨rfl, rfl⟩

/-- Claim C2 (amended): for every bank, weeks parameter, `numQ` and coin
stream, initialization fails with the empty-selection error exactly when the
candidate list is empty, and otherwise produces a session of exactly
`min numQ candidateCount` questions (which is 0 when `numQ = 0`, without
failing). -/
theorem sessionCount_c2_amended (wp : Option String) (numQ : Nat) (bank : QuizContent)
    (coins : List Bool) :
    ((candidateQuestions wp bank).length = 0 →
      initQuestions wp numQ bank coins =
        Except.error "No questions available for the selected weeks.") ∧
    ((candidateQuestions wp bank).length ≠ 0 →
      ∃ qs, initQuestions wp numQ bank coins = Except.ok qs ∧
        qs.length = min numQ (candidateQuestions wp bank).length) := by
  constructor
  · intro h
    simp [initQuestions, h]
  · intro h
    refine ⟨((randSort (candidateQuestions wp bank) coins).1).take numQ, ?_, ?_⟩
    · simp [initQuestions, h]
    · rw [List.length_take, randSort_fst_length]

/-- Claim C2 witness: on the one-candidate bank with `numQ = 5` the amended
statement yields a successful initialization. -/
theorem sessionCount_c2_witness :
    (candidateQuestions (some "1") bankEx).length = 1 ∧
    Except.isOk (initQuestions (some "1") 5 bankEx []) = true := by
  constructor
  · rfl
  · obtain ⟨qs, hok, _⟩ := (sessionCount_c2_amended (some "1") 5 bankEx []).2 (by decide)
    rw [hok]
    rfl

/-- A reachable pre-submission session: one question, answered correctly. -/
def sC3 : QuizState :=
  { questions := [{ question := "q1", options := ["a", "b"], answer := some "a"
                    selectedAnswer := some "a", weekNumber := "1" }]
    currentQuestionIndex := 0
    timeRemaining := 0
    quizSubmitted := false
    score := 0
    showWarning := false
    showOnlyIncorrect := false
    expandedQuestionIndex := none
    showError := false }

/-- Claim C3 (code bug): `submitQuiz` (lines 168-174) contains no
`quizSubmitted` guard, so each invocation executes the score computation and
the writes.  Two consecutive invocations of the submission transition perform
two score computations, not the exactly-one the claim requires; the resulting
state happens to coincide with the once-submitted state only because the
recomputation reads the unchanged question list. -/
theorem doubleSubmit_c3_bug :
    (submitQuizInstr (submitQuizInstr (sC3, 0))).2 = 2 ∧
    (submitQuizInstr (sC3, 0)).1.quizSubmitted = true ∧
    (submitQuizInstr (submitQuizInstr (sC3, 0))).1 = (submitQuizInstr (sC3, 0)).1 := by
  exact ⟨rfl, rfl, rfl⟩

/-- A two-question session whose first question has `selectedAnswer = some ""`. -/
def sC4 : QuizState :=
  { questions := [{ question := "q1", options := ["", "b"], answer := some "b"
                    selectedAnswer := some "", weekNumber := "1" },
                  { question := "q2", options := ["a", "b"], answer := some "a"
                    selectedAnswer := none, weekNumber := "1" }]
    currentQuestionIndex := 0
    timeRemaining := 100
    quizSubmitted := false
    score := 0
    showWarning := false
    showOnlyIncorrect := false
    expandedQuestionIndex := none
    showError := false }

/-- Claim C4 counterexample: the guard on line 179 is
`if (!currentQuestion.selectedAnswer)`, a JavaScript falsiness test, so a
`selectedAnswer` that is set to the empty string is treated as unset:
`advance()` raises the validation flag and neither increments
`currentQuestionIndex` nor submits, although `selectedAnswer` is set. -/
theorem emptyStringAnswer_c4_counterexample :
    (sC4.questions[sC4.currentQuestionIndex]?).bind QuizQuestion.selectedAnswer = some "" ∧
    goToNextQuestion sC4 = some { sC4 with showError := true } ∧
    (goToNextQuestion sC4).map QuizState.currentQuestionIndex = some 0 ∧
    (goToNextQuestion sC4).map QuizState.quizSubmitted = some false := by
  exact ⟨rfl, rfl, rfl, rfl⟩

/-- Claim C4 (amended): in an answering state with the current index in range,
`advance()` with a falsy `selectedAnswer` (unset or the empty string) only
sets the validation flag — `currentQuestionIndex`, `quizSubmitted`, `score`
and all questions are unchanged — and `advance()` with a nonempty
`selectedAnswer` invokes the submission transition when the index is last and
otherwise increments the index by exactly 1. -/
theorem advance_c4_amended (s : QuizState) (q : QuizQuestion)
    (hq : s.questions[s.currentQuestionIndex]? = some q) :
    (jsFalsy q.selectedAnswer = true →
      goToNextQuestion s = some { s with showError := true }) ∧
    (∀ a : String, q.selectedAnswer = some a → a ≠ "" →
      (s.currentQuestionIndex = s.questions.length - 1 →
        goToNextQuestion s = some (submitQuiz { s with showError := false })) ∧
      (s.currentQuestionIndex ≠ s.questions.length - 1 →
        goToNextQuestion s =
          some { s with showError := false,
                        currentQuestionIndex := s.currentQuestionIndex + 1 })) := by
  constructor
  · intro hf
    unfold goToNextQuestion
    rw [hq]
    simp [hf]
  · intro a ha hne
    have hf : jsFalsy q.selectedAnswer = false := by
      rw [ha]
      show a.isEmpty = false
      cases he : a.isEmpty with
      | false => rfl
      | true => exact absurd ((String.isEmpty_iff a).mp he) hne
    constructor
    · intro hlast
      unfold goToNextQuestion
      rw [hq]
      simp [hf, hlast]
    · intro hlast
      unfold goToNextQuestion
      rw [hq]
      simp [hf, hlast]

/-- A two-question session with the first question answered (nonempty). -/
def sC4w : QuizState :=
  { sC4 with questions := [{ question := "q1", options := ["a", "b"], answer := some "b"
                             selectedAnswer := some "a", weekNumber := "1" },
                           { question := "q2", options := ["a", "b"], answer := some "a"
                             selectedAnswer := none, weekNumber := "1" }] }

/-- Claim C4 witness: on a non-last answered question, `advance()` increments
the index by exactly 1 and clears the validation flag. -/
theorem advance_c4_witness :
    goToNextQuestion sC4w =
      some { sC4w with showError := false, currentQuestionIndex := 1 } := by
  have h := (advance_c4_amended sC4w
      { question := "q1", options := ["a", "b"], answer := some "b"
        selectedAnswer := some "a", weekNumber := "1" } rfl).2 "a" rfl (by decide)
  exact h.2 (by decide)

/-- Claim C10: a bank question violating the §3 non-empty-answer invariant
(`answer = []`) derives a session question whose `expectedAnswer`
(`q.answer[0]`) is `undefined`; a never-answered copy of it has
`selectedAnswer` also `undefined`, and `===` makes the scorer count it as
correct — appending such a question to any session raises the score by 1. -/
theorem emptyAnswer_c10 (bq : Question) (wn : String) (h : bq.answer = []) :
    (toQuizQuestion wn bq).answer = none ∧
    (toQuizQuestion wn bq).selectedAnswer = none ∧
    ∀ qs : List QuizQuestion, countCorrect (qs ++ [toQuizQuestion wn bq]) = countCorrect qs + 1 := by
  refine ⟨by simp [toQuizQuestion, h], rfl, ?_⟩
  intro qs
  simp [countCorrect, List.filter_append, toQuizQuestion, h]

/-- A bank question with an empty answer array. -/
def bq10 : Question := { question := "q", options := ["a", "b"], answer := [] }

/-- Claim C10 witness: the concrete empty-answer bank question scores as
correct while never answered. -/
theorem emptyAnswer_c10_witness :
    (toQuizQuestion "3" bq10).answer = none ∧ countCorrect [toQuizQuestion "3" bq10] = 1 := by
  obtain ⟨h1, _, h3⟩ := emptyAnswer_c10 bq10 "3" rfl
  refine ⟨h1, ?_⟩
  simpa [countCorrect] using h3 []

/-- Claim C5: the scorer counts the questions whose `selectedAnswer` equals
`expectedAnswer`; the displayed percentage is `100 * score / len` rounded to
one decimal place (ECMAScript `toFixed(1)`); and `getScoreColor` classifies
the rounded percentage as the "high" class iff it is ≥ 80, the "mid" class
iff it is in [60, 80), and the "low" class otherwise. -/
theorem scorer_c5 (qs : List QuizQuestion) (_h : qs ≠ []) :
    countCorrect qs = qs.countP (fun q => q.selectedAnswer == q.answer) ∧
    displayedPercentage (countCorrect qs) qs.length =
      toFixed1 (100 * (countCorrect qs : ℚ) / (qs.length : ℚ)) ∧
    ∀ p : ℚ,
      (getScoreColor p = "text-green-800 dark:bg-green-800/20" ↔ 80 ≤ p) ∧
      (getScoreColor p = "text-yellow-600 dark:bg-yellow-800/20" ↔ 60 ≤ p ∧ p < 80) ∧
      (getScoreColor p = "dark:bg-red-800/20 text-red-800" ↔ p < 60) := by
  refine ⟨?_, ?_, ?_⟩
  · rw [countCorrect, List.countP_eq_length_filter]
  · unfold displayedPercentage percentageRaw
    congr 1
    ring
  · intro p
    unfold getScoreColor
    split_ifs with h1 h2
    · refine ⟨iff_of_true rfl h1, iff_of_false (by decide) ?_, iff_of_false (by decide) ?_⟩
      · rintro ⟨-, hlt⟩
        linarith
      · intro hlt
        linarith
    · refine ⟨iff_of_false (by decide) h1, iff_of_true rfl ⟨h2, lt_of_not_ge h1⟩,
        iff_of_false (by decide) ?_⟩
      intro hlt
      linarith
    · refine ⟨iff_of_false (by decide) h1, iff_of_false (by decide) ?_,
        iff_of_true rfl (lt_of_not_ge h2)⟩
      rintro ⟨hge, -⟩
      exact h2 hge

/-- A concrete five-question session: 2 answered correctly, 3 incorrectly
(one of them never answered). -/
def qs5 : List QuizQuestion :=
  [{ question := "q1", options := ["a", "b"], answer := some "a"
     selectedAnswer := some "a", weekNumber := "1" },
   { question := "q2", options := ["a", "b"], answer := some "a"
     selectedAnswer := some "b", weekNumber := "1" },
   { question := "q3", options := ["a", "b"], answer := some "b"
     selectedAnswer := none, weekNumber := "2" },
   { question := "q4", options := ["a", "b"], answer := some "b"
     selectedAnswer := some "b", weekNumber := "2" },
   { question := "q5", options := ["a", "b"], answer := some "a"
     selectedAnswer := some "c", weekNumber := "2" }]

/-- Claim C5 witness: the scorer facts instantiated on the concrete
five-question session. -/
theorem scorer_c5_witness :
    countCorrect qs5 = qs5.countP (fun q => q.selectedAnswer == q.answer) ∧
    (getScoreColor 80 = "text-green-800 dark:bg-green-800/20" ↔ (80 : ℚ) ≤ 80) := by
  exact ⟨(scorer_c5 qs5 (by decide)).1, ((scorer_c5 qs5 (by decide)).2.2 80).1⟩

/-- `parseInt` of a two-digit string. -/
theorem jsParseIntDigits_two (a b : Char) (ha : a.isDigit = true) (hb : b.isDigit = true) :
    jsParseIntDigits (String.mk [a, b]) = some (10 * digitVal a + digitVal b) := by
  unfold jsParseIntDigits
  simp [List.takeWhile, ha, hb]

/-- Claim C6: with the time parameter absent the initial clock is 1800; with
a 6-digit `HHMMSS` parameter the initial clock is `H*3600 + M*60 + S` when
that value is positive, and 1800 when it parses to zero. -/
theorem initialTime_c6 (a b c d e f : Char)
    (ha : a.isDigit = true) (hb : b.isDigit = true) (hc : c.isDigit = true)
    (hd : d.isDigit = true) (he : e.isDigit = true) (hf : f.isDigit = true) :
    initialTimeRemaining none = 1800 ∧
    initialTimeRemaining (some (String.mk [a, b, c, d, e, f])) =
      (if 0 < (10 * digitVal a + digitVal b) * 3600 + (10 * digitVal c + digitVal d) * 60 +
            (10 * digitVal e + digitVal f)
       then (10 * digitVal a + digitVal b) * 3600 + (10 * digitVal c + digitVal d) * 60 +
            (10 * digitVal e + digitVal f)
       else 1800) := by
  refine ⟨rfl, ?_⟩
  have h12 : substringChars (String.mk [a, b, c, d, e, f]) 0 2 = String.mk [a, b] := rfl
  have h34 : substringChars (String.mk [a, b, c, d, e, f]) 2 4 = String.mk [c, d] := rfl
  have h56 : substringChars (String.mk [a, b, c, d, e, f]) 4 6 = String.mk [e, f] := rfl
  have hts : timeSecondsOfParam (some (String.mk [a, b, c, d, e, f])) =
      some ((10 * digitVal a + digitVal b) * 3600 + (10 * digitVal c + digitVal d) * 60 +
            (10 * digitVal e + digitVal f)) := by
    simp only [timeSecondsOfParam, String.toList, List.isEmpty_cons, Bool.false_eq_true,
      if_false, h12, h34, h56, jsParseIntDigits_two a b ha hb, jsParseIntDigits_two c d hc hd,
      jsParseIntDigits_two e f he hf]
  unfold initialTimeRemaining
  rw [hts]

/-- Claim C6 witness: `time=010203` yields an initial clock of 3723 seconds. -/
theorem initialTime_c6_witness :
    initialTimeRemaining (some (String.mk ['0', '1', '0', '2', '0', '3'])) = 3723 := by
  have h := (initialTime_c6 '0' '1' '0' '2' '0' '3' (by decide) (by decide) (by decide)
      (by decide) (by decide) (by decide)).2
  rw [h]
  decide

/-- Claim C7: on a submitted session, filtering with `true` displays exactly
the questions whose `selectedAnswer` differs from the expected answer, as a
subsequence of the session order, and filtering with `false` displays the
full sequence. -/
theorem reviewFilter_c7 (s : QuizState) (_h : s.quizSubmitted = true) :
    displayedOf (setShowOnlyIncorrect true s) =
      s.questions.filter (fun q => !(q.selectedAnswer == q.answer)) ∧
    displayedOf (setShowOnlyIncorrect false s) = s.questions ∧
    (displayedOf (setShowOnlyIncorrect true s)).Sublist s.questions ∧
    ∀ q : QuizQuestion,
      q ∈ displayedOf (setShowOnlyIncorrect true s) ↔
        q ∈ s.questions ∧ q.selectedAnswer ≠ q.answer := by
  refine ⟨rfl, rfl, List.filter_sublist _, ?_⟩
  intro q
  simp [displayedOf, setShowOnlyIncorrect, displayedQuestions, List.mem_filter]

/-- The five-question session after submission. -/
def sEx5 : QuizState :=
  { questions := qs5
    currentQuestionIndex := 4
    timeRemaining := 0
    quizSubmitted := true
    score := 2
    showWarning := true
    showOnlyIncorrect := false
    expandedQuestionIndex := none
    showError := false }

/-- Claim C7 witness: on the submitted five-question session with 3 incorrect
answers, `setFilter(true)` displays exactly 3 questions and `setFilter(false)`
displays all 5. -/
theorem reviewFilter_c7_witness :
    sEx5.quizSubmitted = true ∧
    (displayedOf (setShowOnlyIncorrect true sEx5)).length = 3 ∧
    (displayedOf (setShowOnlyIncorrect false sEx5)).length = 5 := by
  refine ⟨rfl, ?_, ?_⟩
  · rw [(reviewFilter_c7 sEx5 rfl).1]
    decide
  · rw [(reviewFilter_c7 sEx5 rfl).2.1]
    decide

/-! ### The low-time warning latch -/

/-- No session event ever clears `showWarning`: `setShowWarning(false)` does
not occur anywhere in the component. -/
theorem applyOp_showWarning_mono (op : QuizOp) (s : QuizState) (h : s.showWarning = true) :
    (applyOp op s).showWarning = true := by
  cases op with
  | timerTick =>
    show (tick s).showWarning = true
    unfold tick
    split_ifs <;> simp [submitQuiz, h]
  | expiry =>
    show (autoSubmitEffect s).showWarning = true
    unfold autoSubmitEffect
    split_ifs <;> simp [submitQuiz, h]
  | select a =>
    simpa [applyOp, handleAnswerSelect] using h
  | advance =>
    show ((goToNextQuestion s).getD s).showWarning = true
    unfold goToNextQuestion
    cases hg : s.questions[s.currentQuestionIndex]? with
    | none => simpa using h
    | some q =>
      by_cases hf : jsFalsy q.selectedAnswer = true
      · simp [hf, h]
      · by_cases hl : s.currentQuestionIndex = s.questions.length - 1
        · simp [hf, hl, submitQuiz, h]
        · simp [hf, hl, h]
  | filterIncorrect b =>
    simpa [applyOp, setShowOnlyIncorrect] using h
  | expand i =>
    show (toggleQuestionExpansion i s).showWarning = true
    unfold toggleQuestionExpansion
    split_ifs <;> simp [h]

theorem runOps_showWarning_mono (ops : List QuizOp) :
    ∀ s : QuizState, s.showWarning = true → (runOps ops s).showWarning = true := by
  induction ops with
  | nil => intro s h; exact h
  | cons op ops ih => intro s h; exact ih (applyOp op s) (applyOp_showWarning_mono op s h)

theorem risingEdges_allTrue : ∀ l : List Bool, (∀ b, b ∈ l → b = true) → risingEdges l = 0
  | [], _ => rfl
  | [_], _ => rfl
  | a :: b :: rest, h => by
    have ha : a = true := h a (List.mem_cons_self a (b :: rest))
    have ih := risingEdges_allTrue (b :: rest) (fun x hx => h x (List.mem_cons_of_mem a hx))
    simp [risingEdges, ha, ih]

theorem traceStates_allTrue (ops : List QuizOp) :
    ∀ s : QuizState, s.showWarning = true → ∀ t, t ∈ traceStates ops s → t.showWarning = true := by
  induction ops with
  | nil =>
    intro s hs t ht
    simp only [traceStates, List.mem_singleton] at ht
    subst ht
    exact hs
  | cons op ops ih =>
    intro s hs t ht
    simp only [traceStates, List.mem_cons] at ht
    rcases ht with rfl | ht
    · exact hs
    · exact ih (applyOp op s) (applyOp_showWarning_mono op s hs) t ht

theorem traceStates_shape (ops : List QuizOp) (s : QuizState) :
    ∃ rest, traceStates ops s = s :: rest := by
  cases ops with
  | nil => exact ⟨[], rfl⟩
  | cons op ops => exact ⟨traceStates ops (applyOp op s), rfl⟩

/-- Along any run, `showWarning` rises from `false` to `true` at most once. -/
theorem traceStates_risingEdges (ops : List QuizOp) :
    ∀ s : QuizState, risingEdges ((traceStates ops s).map (fun t => t.showWarning)) ≤ 1 := by
  induction ops with
  | nil => intro s; simp [traceStates, risingEdges]
  | cons op ops ih =>
    intro s
    obtain ⟨rest, hr⟩ := traceStates_shape ops (applyOp op s)
    by_cases hw : s.showWarning = true
    · have hall : ∀ b, b ∈ (traceStates (op :: ops) s).map (fun t => t.showWarning) → b = true := by
        intro b hb
        simp only [List.mem_map] at hb
        obtain ⟨t, ht, rfl⟩ := hb
        exact traceStates_allTrue (op :: ops) s hw t ht
      simp [risingEdges_allTrue _ hall]
    · have hws : s.showWarning = false := by
        cases hx : s.showWarning
        · rfl
        · exact absurd hx hw
      show risingEdges ((s :: traceStates ops (applyOp op s)).map (fun t => t.showWarning)) ≤ 1
      rw [hr]
      by_cases hw2 : (applyOp op s).showWarning = true
      · have hall2 : ∀ b, b ∈ ((applyOp op s) :: rest).map (fun t => t.showWarning) → b = true := by
          intro b hb
          simp only [List.mem_map] at hb
          obtain ⟨t, ht, rfl⟩ := hb
          have htm : t ∈ traceStates ops (applyOp op s) := by
            rw [hr]
            exact ht
          exact traceStates_allTrue ops (applyOp op s) hw2 t htm
        have h0 : risingEdges (((applyOp op s) :: rest).map (fun t => t.showWarning)) = 0 :=
          risingEdges_allTrue _ hall2
        simp only [List.map_cons] at h0 ⊢
        rw [hw2] at h0
        simp [risingEdges, hws, hw2, h0]
      · have hws2 : (applyOp op s).showWarning = false := by
          cases hx : (applyOp op s).showWarning
          · rfl
          · exact absurd hx hw2
        have ihs := ih (applyOp op s)
        rw [hr] at ihs
        simp only [List.map_cons] at ihs ⊢
        simp only [risingEdges, hws, hws2]
        simpa [hws2] using ihs

/-- Claim C8: when a tick crosses the exclusive threshold (the clock reads 30
and the session is running) the warning latch is set; once `showWarning` is
true no sequence of session events (ticks, expiry, selection, advance, review
filtering, expansion) ever resets it; and along any event sequence the latch
rises from false to true at most once. -/
theorem warningLatch_c8 (s : QuizState) (ops : List QuizOp) :
    (s.timeRemaining = 30 → s.quizSubmitted = false → (tick s).showWarning = true) ∧
    (s.showWarning = true → (runOps ops s).showWarning = true) ∧
    risingEdges ((traceStates ops s).map (fun t => t.showWarning)) ≤ 1 := by
  refine ⟨?_, runOps_showWarning_mono ops s, traceStates_risingEdges ops s⟩
  intro h30 hsub
  unfold tick
  rw [h30, hsub]
  simp

/-- A running session whose clock reads 30 seconds. -/
def s30 : QuizState :=
  { questions := qs5
    currentQuestionIndex := 0
    timeRemaining := 30
    quizSubmitted := false
    score := 0
    showWarning := false
    showOnlyIncorrect := false
    expandedQuestionIndex := none
    showError := false }

/-- Claim C8 witness: the crossing tick on the concrete running session sets
the warning; the latch survives a subsequent `advance`; and a concrete
three-event run has at most one rising edge. -/
theorem warningLatch_c8_witness :
    (tick s30).showWarning = true ∧
    (runOps [QuizOp.advance] (tick s30)).showWarning = true ∧
    risingEdges ((traceStates [QuizOp.timerTick, QuizOp.select "a", QuizOp.timerTick] s30).map
      (fun t => t.showWarning)) ≤ 1 := by
  refine ⟨(warningLatch_c8 s30 []).1 rfl rfl, ?_, ?_⟩
  · exact (warningLatch_c8 (tick s30) [QuizOp.advance]).2.1 ((warningLatch_c8 s30 []).1 rfl rfl)
  · exact (warningLatch_c8 s30 [QuizOp.timerTick, QuizOp.select "a", QuizOp.timerTick]).2.2

end ExamCooker
